import Mathlib

/-!
Verification of the Column Insight Classifier of DataCanvas (src/app.py).

The app loads one SQLite table into a pandas DataFrame and then
  * chooses a visualization for a selected column (tab 2, lines 120-150),
  * computes three table-level insights (tab 4, lines 192-252):
    a correlation insight, a missing-data insight and a cardinality insight.

The embedding models a loaded table as a `Dataset`: an ordered list of named
columns, each carrying the dtype inferred by the loader and a list of cells
(numeric, textual, or null).  The pandas correlation matrix produced by the
library call `df[numeric_cols].corr()` (line 162) is modelled as a coefficient
function `v : String → String → ℚ` supplied alongside the dataset; the
repository code under verification is everything that consumes it
(unstack, sort, filter, head, thresholds — lines 198-218).
-/

/-- A cell of a loaded table: a numeric value, a textual value, or SQL NULL
(pandas `None`/`NaN`). -/
inductive Cell where
  | num (q : ℚ)
  | str (s : String)
  | null
deriving DecidableEq

/-- The dtype pandas assigns to a column.  `numeric` covers the int/float
dtypes recognized by `pd.api.types.is_numeric_dtype` and selected by
`select_dtypes(include=np.number)`; `object` is the textual dtype;
`category` is the pandas categorical dtype (named in
`select_dtypes(include=['object', 'category'])`, line 173); `datetime`
stands for any remaining dtype. -/
inductive DType where
  | numeric
  | object
  | category
  | datetime
deriving DecidableEq

/-- `pd.api.types.is_numeric_dtype` (line 134). -/
def isNumericDtype : DType → Bool
  | .numeric => true
  | _ => false

/-- `pd.api.types.is_object_dtype` (line 144). -/
def isObjectDtype : DType → Bool
  | .object => true
  | _ => false

/-- Membership in `select_dtypes(include=['object', 'category'])` (line 173). -/
def isCategoricalDtype : DType → Bool
  | .object => true
  | .category => true
  | _ => false

/-- One named column of the loaded table. -/
structure Column where
  name : String
  dtype : DType
  cells : List Cell
deriving DecidableEq

/-- The loaded table `df_full`: `nrows = len(df_full)` and the columns in
declared order. -/
structure Dataset where
  nrows : ℕ
  cols : List Column
deriving DecidableEq

/-- Well-formedness of a loaded table: every column holds one cell per row. -/
def Dataset.WF (ds : Dataset) : Prop :=
  ∀ c ∈ ds.cols, c.cells.length = ds.nrows

/-- `column_data.dropna()` (line 137): the non-null cells of a column. -/
def dropna (c : Column) : List Cell :=
  c.cells.filter (fun x => decide (x ≠ Cell.null))

/-- Per-column `df_full.isnull().sum()` entry (line 223): number of null
cells. -/
def missingCount (c : Column) : ℕ :=
  (c.cells.filter (fun x => decide (x = Cell.null))).length

/-- Distinct values of a list in first-occurrence order; `acc` holds the
values already seen, most recent first. -/
def firstDedupAux (acc : List Cell) : List Cell → List Cell
  | [] => acc.reverse
  | x :: t => if x ∈ acc then firstDedupAux acc t else firstDedupAux (x :: acc) t

/-- Distinct values of a list in first-occurrence order. -/
def firstDedup (l : List Cell) : List Cell :=
  firstDedupAux [] l

/-- `column_data.nunique()` (lines 144, 243): the number of distinct non-null
values of a column. -/
def nunique (c : Column) : ℕ :=
  (firstDedup (dropna c)).length

/-- Number of occurrences of a value in a list of cells. -/
def countOf (l : List Cell) (v : Cell) : ℕ :=
  (l.filter (fun y => decide (y = v))).length

/-- Sorting relation used to model the descending sorts of pandas
(`value_counts()`, `sort_values(ascending=False)`): later element has the
smaller second component. -/
def descBy {α β : Type} [LinearOrder β] (p q : α × β) : Prop :=
  q.2 ≤ p.2

instance {α β : Type} [LinearOrder β] : DecidableRel (descBy (α := α) (β := β)) :=
  fun p q => inferInstanceAs (Decidable (q.2 ≤ p.2))

instance {α β : Type} [LinearOrder β] : IsTotal (α × β) descBy :=
  ⟨fun p q => le_total q.2 p.2⟩

instance {α β : Type} [LinearOrder β] : IsTrans (α × β) descBy :=
  ⟨fun _ _ _ h₁ h₂ => le_trans h₂ h₁⟩

/-- `column_data.value_counts()` (line 146): each distinct non-null value
with its count, sorted by count descending (ties keep first-occurrence
order). -/
def valueCounts (c : Column) : List (Cell × ℕ) :=
  List.insertionSort descBy
    ((firstDedup (dropna c)).map (fun v => (v, countOf (dropna c) v)))

/-- The visualization chosen in tab 2 (lines 131-150).  `histogram` carries
the non-null values handed to the automatic binning of `ax.hist(...,
bins='auto')`; `barChartTopN` carries `value_counts().nlargest(25)`. -/
inductive VisKind where
  | histogram (values : List Cell)
  | barChartTopN (series : List (Cell × ℕ))
  | unsupported
deriving DecidableEq

/-- The decision policy of tab 2 (lines 134-150): numeric dtype gives a
histogram; otherwise object dtype OR fewer than 25 distinct values gives a
bar chart of the top 25 value counts; otherwise the unsupported message of
line 150 is shown. -/
def classifyColumn (c : Column) : VisKind :=
  if isNumericDtype c.dtype then .histogram (dropna c)
  else if isObjectDtype c.dtype || decide (nunique c < 25) then
    .barChartTopN ((valueCounts c).take 25)
  else .unsupported

/-- Failure mode of looking up a column that is not in the DataFrame
(`df_full[column_to_visualize]`, line 132, raises KeyError). -/
inductive ColumnNotFoundError where
  | columnNotFound (name : String)
deriving DecidableEq

/-- Lookup of a column by name in declared order. -/
def findColumn (ds : Dataset) (nm : String) : Option Column :=
  ds.cols.find? (fun c => decide (c.name = nm))

/-- `classify_column_visualization`: lines 131-150 packaged over a column
name; a missing name surfaces the lookup failure of line 132. -/
def classifyColumnVisualization (ds : Dataset) (nm : String) :
    Except ColumnNotFoundError VisKind :=
  match findColumn ds nm with
  | none => .error (.columnNotFound nm)
  | some c => .ok (classifyColumn c)

/-- `numeric_cols = df_full.select_dtypes(include=np.number).columns.tolist()`
(line 157). -/
def numericCols (ds : Dataset) : List String :=
  (ds.cols.filter (fun c => isNumericDtype c.dtype)).map (fun c => c.name)

/-- `corr_pairs = corr_matrix.unstack()` (line 200): all ordered pairs of
numeric columns with their coefficient, enumerated row-major over the
declared order.  `v` is the coefficient function of the matrix computed by
the pandas library call at line 162. -/
def corrPairs (cols : List String) (v : String → String → ℚ) :
    List ((String × String) × ℚ) :=
  cols.flatMap (fun a => cols.map (fun b => ((a, b), v a b)))

/-- `sorted_pairs = corr_pairs.sort_values(ascending=False)` (line 202):
the pairs sorted by coefficient descending. -/
def sortedPairs (cols : List String) (v : String → String → ℚ) :
    List ((String × String) × ℚ) :=
  List.insertionSort descBy (corrPairs cols v)

/-- `non_self_corr = sorted_pairs[sorted_pairs != 1.0]` (line 204): every
pair whose coefficient is exactly 1.0 is dropped. -/
def nonSelfCorr (cols : List String) (v : String → String → ℚ) :
    List ((String × String) × ℚ) :=
  (sortedPairs cols v).filter (fun p => decide (p.2 ≠ 1))

/-- `highest_corr_pair = non_self_corr.head(1)` (line 207). -/
def highestCorrPair (cols : List String) (v : String → String → ℚ) :
    Option ((String × String) × ℚ) :=
  (nonSelfCorr cols v).head?

/-- The correlation insight messages of lines 212, 214 and 216. -/
inductive CorrInsight where
  | strong (c1 c2 : String) (r : ℚ)
  | moderate (c1 c2 : String) (r : ℚ)
  | noSignificant
deriving DecidableEq

/-- The correlation insight block (lines 198-218): with fewer than two
numeric columns no matrix exists and no insight is produced; otherwise the
head of the sorted, self-filtered pairs is classified by the thresholds of
lines 211-214, and nothing at all is emitted when its absolute value is at
most 0.5. -/
def corrInsight (ds : Dataset) (v : String → String → ℚ) : Option CorrInsight :=
  if (numericCols ds).length < 2 then none
  else
    match highestCorrPair (numericCols ds) v with
    | none => some .noSignificant
    | some ((c1, c2), r) =>
      if mkRat 7 10 < |r| then some (.strong c1 c2 r)
      else if mkRat 1 2 < |r| then some (.moderate c1 c2 r)
      else none

/-- The missing-data insight messages of lines 232, 234 and 236. -/
inductive MissingInsight where
  | noMissingData
  | someMissing (colName : String) (count : ℕ) (pct : ℚ)
  | highMissing (colName : String) (count : ℕ) (pct : ℚ)
deriving DecidableEq

/-- `missing_summary = df_full.isnull().sum()` (line 223): per-column null
counts in declared order. -/
def missingSummary (ds : Dataset) : List (String × ℕ) :=
  ds.cols.map (fun c => (c.name, missingCount c))

/-- `missing_summary = missing_summary[missing_summary > 0]` (line 224). -/
def missingFiltered (ds : Dataset) : List (String × ℕ) :=
  (missingSummary ds).filter (fun p => decide (0 < p.2))

/-- One step of the scan behind `idxmax`: keep the current best unless a
strictly larger count appears, so ties keep the earlier column. -/
def maxStep (b q : String × ℕ) : String × ℕ :=
  if b.2 < q.2 then q else b

/-- `missing_summary.idxmax()` together with `missing_summary.max()`
(lines 227-228): the first entry attaining the maximal count. -/
def idxmaxWithMax : List (String × ℕ) → Option (String × ℕ)
  | [] => none
  | p :: t => some (t.foldl maxStep p)

/-- The missing-data insight block (lines 221-236): if no column has a
positive null count the success message of line 236 is shown; otherwise the
first column attaining the maximal null count is reported, with percentage
`count / len(df_full) * 100`, as high when the percentage exceeds 30. -/
def missingInsight (ds : Dataset) : MissingInsight :=
  match idxmaxWithMax (missingFiltered ds) with
  | none => .noMissingData
  | some (nm, cnt) =>
    if 30 < (cnt : ℚ) / (ds.nrows : ℚ) * 100 then
      .highMissing nm cnt ((cnt : ℚ) / (ds.nrows : ℚ) * 100)
    else .someMissing nm cnt ((cnt : ℚ) / (ds.nrows : ℚ) * 100)

/-- The cardinality insight messages of lines 248, 250 and 252. -/
inductive CardinalityInsight where
  | highCardinality (cols : List (String × ℕ))
  | noHighCardinality
  | noCategoricalColumns
deriving DecidableEq

/-- `categorical_cols = df_full.select_dtypes(include=['object',
'category']).columns.tolist()` (line 173), kept as columns. -/
def categoricalCols (ds : Dataset) : List Column :=
  ds.cols.filter (fun c => isCategoricalDtype c.dtype)

/-- `high_cardinality_cols` (lines 241-245): among the categorical columns,
in declared order, those with more than 50 distinct non-null values,
together with their counts. -/
def highCardinalityCols (ds : Dataset) : List (String × ℕ) :=
  (categoricalCols ds).filterMap
    (fun c => if 50 < nunique c then some (c.name, nunique c) else none)

/-- The cardinality insight block (lines 239-252): no categorical columns at
all yields the message of line 252; categorical columns but none of high
cardinality yields line 250; otherwise the collected list is reported. -/
def cardinalityInsight (ds : Dataset) : CardinalityInsight :=
  if (categoricalCols ds).isEmpty then .noCategoricalColumns
  else if (highCardinalityCols ds).isEmpty then .noHighCardinality
  else .highCardinality (highCardinalityCols ds)

/-- The three-field report of tab 4 (`compute_table_insights`). -/
structure InsightReport where
  correlation : Option CorrInsight
  missing : MissingInsight
  cardinality : CardinalityInsight
deriving DecidableEq

/-- `compute_table_insights`: the whole of tab 4 (lines 192-252).  `v` is
the coefficient function of the correlation matrix that the pandas library
call at line 162 derives from the numeric columns. -/
def computeTableInsights (ds : Dataset) (v : String → String → ℚ) :
    InsightReport :=
  { correlation := corrInsight ds v
    missing := missingInsight ds
    cardinality := cardinalityInsight ds }

/-! ### Concrete datasets used by counterexamples and witnesses -/

/-- Three numeric columns whose exact Pearson coefficients are
corr(x,y) = -1, corr(x,z) = 3/5, corr(y,z) = -3/5: the deviation vectors are
x-2 = e1, y-1 = -e1 and z-7 = 3*e1 + 4*e2 for the orthogonal equal-norm
vectors e1 = (1,1,-1,-1) and e2 = (1,-1,1,-1). -/
def dsC1 : Dataset :=
  ⟨4, [⟨"x", .numeric, [.num 3, .num 3, .num 1, .num 1]⟩,
       ⟨"y", .numeric, [.num 0, .num 0, .num 2, .num 2]⟩,
       ⟨"z", .numeric, [.num 14, .num 6, .num 8, .num 0]⟩]⟩

/-- The Pearson coefficients of `dsC1` (the matrix pandas computes for it at
line 162). -/
def corrC1 : String → String → ℚ := fun a b =>
  if a = b then 1
  else if (a = "x" ∧ b = "y") ∨ (a = "y" ∧ b = "x") then -1
  else if (a = "x" ∧ b = "z") ∨ (a = "z" ∧ b = "x") then mkRat 3 5
  else -(mkRat 3 5)

/-- An object-dtype column with 25 distinct textual values. -/
def colC2 : Column :=
  ⟨"c", .object, (List.range 25).map (fun i => Cell.str (String.mk [Char.ofNat (97 + i)]))⟩

/-- A category-dtype column with 25 distinct textual values. -/
def colC2b : Column :=
  ⟨"c", .category, (List.range 25).map (fun i => Cell.str (String.mk [Char.ofNat (97 + i)]))⟩

/-- Three rows, a textual column with two nulls (66.7% missing) and a
numeric column with one null. -/
def dsM : Dataset :=
  ⟨3, [⟨"a", .object, [.null, .null, .str "v"]⟩,
       ⟨"b", .numeric, [.num 1, .null, .num 2]⟩]⟩

/-- Two perfectly correlated numeric columns (y = 2x) and no categorical
columns. -/
def dsXY : Dataset :=
  ⟨3, [⟨"x", .numeric, [.num 1, .num 2, .num 3]⟩,
       ⟨"y", .numeric, [.num 2, .num 4, .num 6]⟩]⟩

/-- The constant coefficient function 1, the matrix pandas computes for
`dsXY`. -/
def oneCorr : String → String → ℚ := fun _ _ => 1

/-- A coefficient function for datasets without enough numeric columns. -/
def zeroCorr : String → String → ℚ := fun _ _ => 0

/-- A dataset with zero rows and zero columns. -/
def ds0 : Dataset := ⟨0, []⟩

/-- An entirely null object column. -/
def colC7 : Column := ⟨"n", .object, [.null, .null]⟩

/-- A single categorical column with 51 distinct values. -/
def dsC5 : Dataset :=
  ⟨51, [⟨"zip", .object, (List.range 51).map (fun i => Cell.num i)⟩]⟩

/-- A numeric column with a null. -/
def colC9 : Column := ⟨"v", .numeric, [.num 1, .null, .num 2]⟩

/-! ### Helper lemmas -/

theorem correlation_computeTableInsights (ds : Dataset) (v : String → String → ℚ) :
    (computeTableInsights ds v).correlation = corrInsight ds v := rfl

theorem missing_computeTableInsights (ds : Dataset) (v : String → String → ℚ) :
    (computeTableInsights ds v).missing = missingInsight ds := rfl

theorem cardinality_computeTableInsights (ds : Dataset) (v : String → String → ℚ) :
    (computeTableInsights ds v).cardinality = cardinalityInsight ds := rfl

theorem mem_corrPairs {cols : List String} {v : String → String → ℚ}
    {p : (String × String) × ℚ} (h : p ∈ corrPairs cols v) :
    p.1.1 ∈ cols ∧ p.1.2 ∈ cols ∧ p.2 = v p.1.1 p.1.2 := by
  simp only [corrPairs, List.mem_flatMap, List.mem_map] at h
  obtain ⟨a, ha, b, hb, hp⟩ := h
  subst hp
  exact ⟨ha, hb, rfl⟩

theorem mem_sortedPairs {cols : List String} {v : String → String → ℚ}
    {p : (String × String) × ℚ} :
    p ∈ sortedPairs cols v ↔ p ∈ corrPairs cols v :=
  (List.perm_insertionSort descBy (corrPairs cols v)).mem_iff

theorem nonSelfCorr_pairwise (cols : List String) (v : String → String → ℚ) :
    (nonSelfCorr cols v).Pairwise descBy :=
  List.Pairwise.sublist (List.filter_sublist _)
    (List.sorted_insertionSort descBy (corrPairs cols v))

theorem nonSelfCorr_eq_nil_of_all_one {cols : List String} {v : String → String → ℚ}
    (h1 : ∀ a ∈ cols, ∀ b ∈ cols, v a b = 1) : nonSelfCorr cols v = [] := by
  apply List.filter_eq_nil_iff.mpr
  intro p hp
  obtain ⟨ha, hb, hv⟩ := mem_corrPairs (mem_sortedPairs.mp hp)
  simp [hv, h1 _ ha _ hb]

/-! ### Claims -/

/-- Claim C9 (confirmed): a column whose inferred dtype is numeric is always
visualized as a histogram over its non-null values. -/
theorem C9_numeric_histogram (c : Column) (h : isNumericDtype c.dtype = true) :
    classifyColumn c = .histogram (dropna c) := by
  unfold classifyColumn
  rw [if_pos h]

theorem C9_witness : classifyColumn colC9 = VisKind.histogram (dropna colC9) :=
  C9_numeric_histogram colC9 rfl

/-- Claim C7 (confirmed): an entirely null column of non-numeric dtype (the
loader infers the object dtype for an all-null column) has distinct count 0
and is routed to a bar chart with an empty series; no branch fails. -/
theorem C7_all_null_column (c : Column)
    (hnum : isNumericDtype c.dtype = false)
    (hnull : ∀ x ∈ c.cells, x = Cell.null) :
    nunique c = 0 ∧ classifyColumn c = .barChartTopN [] := by
  have hd : dropna c = [] := by
    apply List.filter_eq_nil_iff.mpr
    intro x hx
    simp [hnull x hx]
  have hn : nunique c = 0 := by rw [nunique, hd]; rfl
  refine ⟨hn, ?_⟩
  unfold classifyColumn
  rw [if_neg (by simp [hnum]), if_pos (by rw [hn]; exact Bool.or_true _)]
  rw [valueCounts, hd]
  rfl

theorem C7_witness : nunique colC7 = 0 ∧ classifyColumn colC7 = VisKind.barChartTopN [] :=
  C7_all_null_column colC7 rfl (by decide)

/-- Claim C8 (confirmed): the lookup fails with the column-not-found error
exactly when no column carries the requested name, and every existing column
is classified without error. -/
theorem C8_column_lookup (ds : Dataset) (nm : String) :
    ((∀ c ∈ ds.cols, c.name ≠ nm) ↔
      classifyColumnVisualization ds nm = .error (.columnNotFound nm)) ∧
    (∀ c ∈ ds.cols, c.name = nm → ∃ k, classifyColumnVisualization ds nm = .ok k) := by
  constructor
  · constructor
    · intro h
      have hf : findColumn ds nm = none := by
        apply List.find?_eq_none.mpr
        intro c hc
        simp [h c hc]
      unfold classifyColumnVisualization
      rw [hf]
    · intro herr c hc heq
      have hs : (findColumn ds nm).isSome :=
        List.find?_isSome.mpr ⟨c, hc, by simp [heq]⟩
      unfold classifyColumnVisualization at herr
      cases hfc : findColumn ds nm with
      | none => rw [hfc] at hs; simp at hs
      | some c0 => rw [hfc] at herr; simp at herr
  · intro c hc hnm
    have hs : (findColumn ds nm).isSome :=
      List.find?_isSome.mpr ⟨c, hc, by simp [hnm]⟩
    cases hfc : findColumn ds nm with
    | none => rw [hfc] at hs; simp at hs
    | some c0 =>
      exact ⟨classifyColumn c0, by unfold classifyColumnVisualization; rw [hfc]⟩

theorem C8_witness : ∃ k, classifyColumnVisualization dsM "a" = Except.ok k :=
  (C8_column_lookup dsM "a").2 ⟨"a", DType.object, [Cell.null, Cell.null, Cell.str "v"]⟩
    (by decide) rfl

/-- Claim C10 (confirmed): when every coefficient between numeric columns is
exactly 1.0 — including between two distinct, perfectly correlated columns —
every pair is removed by the `!= 1.0` filter and the no-significant-
correlation message is reported instead of a strong insight. -/
theorem C10_perfect_correlation_excluded (ds : Dataset) (v : String → String → ℚ)
    (h2 : 2 ≤ (numericCols ds).length)
    (h1 : ∀ a ∈ numericCols ds, ∀ b ∈ numericCols ds, v a b = 1) :
    (computeTableInsights ds v).correlation = some CorrInsight.noSignificant := by
  have h0 : highestCorrPair (numericCols ds) v = none := by
    unfold highestCorrPair
    rw [nonSelfCorr_eq_nil_of_all_one h1]
    rfl
  rw [correlation_computeTableInsights]
  unfold corrInsight
  rw [if_neg (not_lt.mpr h2), h0]

theorem C10_witness :
    (computeTableInsights dsXY oneCorr).correlation = some CorrInsight.noSignificant :=
  C10_perfect_correlation_excluded dsXY oneCorr (by decide) (fun _ _ _ _ => rfl)

/-- Claim C6 (confirmed): given the selected pair with coefficient `r`, the
insight is strong exactly above absolute value 0.7, moderate on (0.5, 0.7],
and nothing is emitted at or below 0.5 even though the pair exists. -/
theorem C6_correlation_thresholds (ds : Dataset) (v : String → String → ℚ)
    (c1 c2 : String) (r : ℚ)
    (h2 : 2 ≤ (numericCols ds).length)
    (hh : highestCorrPair (numericCols ds) v = some ((c1, c2), r)) :
    (mkRat 7 10 < |r| →
      (computeTableInsights ds v).correlation = some (.strong c1 c2 r)) ∧
    (mkRat 1 2 < |r| → |r| ≤ mkRat 7 10 →
      (computeTableInsights ds v).correlation = some (.moderate c1 c2 r)) ∧
    (|r| ≤ mkRat 1 2 → (computeTableInsights ds v).correlation = none) := by
  have hc : corrInsight ds v =
      (if mkRat 7 10 < |r| then some (.strong c1 c2 r)
       else if mkRat 1 2 < |r| then some (.moderate c1 c2 r) else none) := by
    unfold corrInsight
    rw [if_neg (not_lt.mpr h2), hh]
  refine ⟨fun h7 => ?_, fun h5 h7 => ?_, fun h5 => ?_⟩
  · rw [correlation_computeTableInsights, hc, if_pos h7]
  · rw [correlation_computeTableInsights, hc, if_neg (not_lt.mpr h7), if_pos h5]
  · rw [correlation_computeTableInsights, hc,
      if_neg (not_lt.mpr (le_trans h5 (by decide))), if_neg (not_lt.mpr h5)]

theorem C6_witness :
    (computeTableInsights dsC1 corrC1).correlation =
      some (CorrInsight.moderate "x" "z" (mkRat 3 5)) :=
  (C6_correlation_thresholds dsC1 corrC1 "x" "z" (mkRat 3 5) (by decide) (by decide)).2.1
    (by decide) (by decide)

/-- Claim C4 (confirmed): degenerate inputs map to the degraded variants
rather than failing: fewer than two numeric columns give no correlation
insight, a zero-row table reports no missing data (the percentage division
is never reached), and zero categorical columns degrade the cardinality
insight to its no-categorical variant. -/
theorem C4_degenerate_inputs (ds : Dataset) (v : String → String → ℚ) :
    ((numericCols ds).length < 2 → (computeTableInsights ds v).correlation = none) ∧
    (ds.WF → ds.nrows = 0 →
      (computeTableInsights ds v).missing = MissingInsight.noMissingData) ∧
    (categoricalCols ds = [] →
      (computeTableInsights ds v).cardinality = CardinalityInsight.noCategoricalColumns) := by
  refine ⟨fun hlt => ?_, fun hwf h0 => ?_, fun hcat => ?_⟩
  · rw [correlation_computeTableInsights]
    unfold corrInsight
    rw [if_pos hlt]
  · rw [missing_computeTableInsights]
    have hf : missingFiltered ds = [] := by
      apply List.filter_eq_nil_iff.mpr
      intro p hp
      simp only [missingSummary, List.mem_map] at hp
      obtain ⟨c, hc, rfl⟩ := hp
      have hcells : c.cells = [] := List.length_eq_zero.mp (by rw [hwf c hc, h0])
      simp [missingCount, hcells]
    unfold missingInsight
    rw [hf]
    rfl
  · rw [cardinality_computeTableInsights]
    unfold cardinalityInsight
    rw [hcat]
    rfl

theorem C4_witness :
    (computeTableInsights ds0 zeroCorr).correlation = none ∧
    (computeTableInsights ds0 zeroCorr).missing = MissingInsight.noMissingData ∧
    (computeTableInsights ds0 zeroCorr).cardinality = CardinalityInsight.noCategoricalColumns :=
  ⟨(C4_degenerate_inputs ds0 zeroCorr).1 (by decide),
   (C4_degenerate_inputs ds0 zeroCorr).2.1 (fun c hc => absurd hc (List.not_mem_nil c)) rfl,
   (C4_degenerate_inputs ds0 zeroCorr).2.2 rfl⟩

theorem mem_nonSelfCorr {cols : List String} {v : String → String → ℚ}
    {p : (String × String) × ℚ} :
    p ∈ nonSelfCorr cols v ↔ p ∈ corrPairs cols v ∧ p.2 ≠ 1 := by
  unfold nonSelfCorr
  rw [List.mem_filter, mem_sortedPairs]
  simp

theorem corrInsight_some_pair {ds : Dataset} {v : String → String → ℚ}
    {c1 c2 : String} {r : ℚ}
    (h : corrInsight ds v = some (.strong c1 c2 r) ∨
         corrInsight ds v = some (.moderate c1 c2 r)) :
    highestCorrPair (numericCols ds) v = some ((c1, c2), r) := by
  unfold corrInsight at h
  split at h
  · rcases h with h | h <;> exact Option.noConfusion h
  · split at h
    · rcases h with h | h <;> simp at h
    · split at h
      · rcases h with h | h
        · simp only [Option.some.injEq, CorrInsight.strong.injEq] at h
          obtain ⟨rfl, rfl, rfl⟩ := h
          assumption
        · simp at h
      · split at h
        · rcases h with h | h
          · simp at h
          · simp only [Option.some.injEq, CorrInsight.moderate.injEq] at h
            obtain ⟨rfl, rfl, rfl⟩ := h
            assumption
        · rcases h with h | h <;> exact Option.noConfusion h

/-- Claim C1 (corrected): the reported pair is the one with the maximum
SIGNED coefficient among all unstacked pairs with coefficient different from
1.0 — not the maximum absolute coefficient: the sort of line 202 is by
signed value descending and line 207 takes its head, so a pair at -0.95
loses to a pair at +0.60.  Tie order is left unspecified because the pandas
quicksort is unstable. -/
theorem C1_max_signed_selection (ds : Dataset) (v : String → String → ℚ)
    (c1 c2 : String) (r : ℚ)
    (h : (computeTableInsights ds v).correlation = some (.strong c1 c2 r) ∨
         (computeTableInsights ds v).correlation = some (.moderate c1 c2 r)) :
    ((c1, c2), r) ∈ corrPairs (numericCols ds) v ∧ r ≠ 1 ∧
    ∀ p ∈ corrPairs (numericCols ds) v, p.2 ≠ 1 → p.2 ≤ r := by
  have hh : highestCorrPair (numericCols ds) v = some ((c1, c2), r) :=
    corrInsight_some_pair h
  unfold highestCorrPair at hh
  cases hns : nonSelfCorr (numericCols ds) v with
  | nil => rw [hns] at hh; exact Option.noConfusion hh
  | cons a t =>
    rw [hns] at hh
    simp only [List.head?_cons, Option.some.injEq] at hh
    subst hh
    have hmem : ((c1, c2), r) ∈ nonSelfCorr (numericCols ds) v := by
      rw [hns]; exact List.mem_cons_self _ _
    refine ⟨(mem_nonSelfCorr.mp hmem).1, (mem_nonSelfCorr.mp hmem).2, ?_⟩
    intro p hp hpne
    have hpns : p ∈ nonSelfCorr (numericCols ds) v := mem_nonSelfCorr.mpr ⟨hp, hpne⟩
    rw [hns] at hpns
    rcases List.mem_cons.mp hpns with heq | hpt
    · rw [heq]
    · have hpw : descBy ((c1, c2), r) p :=
        List.rel_of_pairwise_cons (hns ▸ nonSelfCorr_pairwise (numericCols ds) v) hpt
      exact hpw

/-- Claim C1 counterexample: in `dsC1` the pair (x, y) has coefficient -1,
of maximal absolute value among distinct-column pairs, but the insight
reports the pair (x, z) with the smaller absolute coefficient 3/5 because
its signed value sorts first. -/
theorem C1_counterexample :
    (computeTableInsights dsC1 corrC1).correlation =
      some (CorrInsight.moderate "x" "z" (mkRat 3 5)) ∧
    (("x", "y"), corrC1 "x" "y") ∈ corrPairs (numericCols dsC1) corrC1 ∧
    |corrC1 "x" "z"| < |corrC1 "x" "y"| := by decide

theorem C1_witness :
    (("x", "z"), mkRat 3 5) ∈ corrPairs (numericCols dsC1) corrC1 ∧
    (mkRat 3 5 : ℚ) ≠ 1 :=
  ⟨(C1_max_signed_selection dsC1 corrC1 "x" "z" (mkRat 3 5) (Or.inr (by decide))).1,
   (C1_max_signed_selection dsC1 corrC1 "x" "z" (mkRat 3 5) (Or.inr (by decide))).2.1⟩

theorem foldl_maxStep_spec (t : List (String × ℕ)) (b : String × ℕ) :
    (b.2 ≤ (t.foldl maxStep b).2 ∧ ∀ q ∈ t, q.2 ≤ (t.foldl maxStep b).2) ∧
    (t.foldl maxStep b = b ∨
      ∃ pre post, t = pre ++ (t.foldl maxStep b) :: post ∧
        b.2 < (t.foldl maxStep b).2 ∧ ∀ q ∈ pre, q.2 < (t.foldl maxStep b).2) := by
  induction t generalizing b with
  | nil => exact ⟨⟨le_refl _, by simp⟩, Or.inl rfl⟩
  | cons q t ih =>
    rw [List.foldl_cons]
    by_cases hq : b.2 < q.2
    · rw [show maxStep b q = q from if_pos hq]
      obtain ⟨⟨hb, hall⟩, hd⟩ := ih q
      refine ⟨⟨le_trans (le_of_lt hq) hb, ?_⟩, ?_⟩
      · intro x hx
        rcases List.mem_cons.mp hx with rfl | hx
        · exact hb
        · exact hall x hx
      · rcases hd with heq | ⟨pre, post, hsplit, hlt, hpre⟩
        · right
          refine ⟨[], t, ?_, ?_, by simp⟩
          · rw [heq, List.nil_append]
          · rw [heq]; exact hq
        · right
          refine ⟨q :: pre, post, by rw [List.cons_append, ← hsplit], lt_trans hq hlt, ?_⟩
          intro x hx
          rcases List.mem_cons.mp hx with rfl | hx
          · exact hlt
          · exact hpre x hx
    · rw [show maxStep b q = b from if_neg hq]
      obtain ⟨⟨hb, hall⟩, hd⟩ := ih b
      refine ⟨⟨hb, ?_⟩, ?_⟩
      · intro x hx
        rcases List.mem_cons.mp hx with rfl | hx
        · exact le_trans (not_lt.mp hq) hb
        · exact hall x hx
      · rcases hd with heq | ⟨pre, post, hsplit, hlt, hpre⟩
        · exact Or.inl heq
        · right
          refine ⟨q :: pre, post, by rw [List.cons_append, ← hsplit], hlt, ?_⟩
          intro x hx
          rcases List.mem_cons.mp hx with rfl | hx
          · exact lt_of_le_of_lt (not_lt.mp hq) hlt
          · exact hpre x hx

theorem idxmax_spec {l : List (String × ℕ)} {p : String × ℕ}
    (h : idxmaxWithMax l = some p) :
    (∀ q ∈ l, q.2 ≤ p.2) ∧
    ∃ pre post, l = pre ++ p :: post ∧ ∀ q ∈ pre, q.2 < p.2 := by
  cases l with
  | nil => exact Option.noConfusion h
  | cons b t =>
    unfold idxmaxWithMax at h
    injection h with h
    subst h
    obtain ⟨⟨hb, hall⟩, hd⟩ := foldl_maxStep_spec t b
    constructor
    · intro q hq
      rcases List.mem_cons.mp hq with rfl | hq
      · exact hb
      · exact hall q hq
    · rcases hd with heq | ⟨pre, post, hsplit, hlt, hpre⟩
      · exact ⟨[], t, by rw [heq, List.nil_append], by simp⟩
      · refine ⟨b :: pre, post, by rw [List.cons_append, ← hsplit], ?_⟩
        intro q hq
        rcases List.mem_cons.mp hq with rfl | hq
        · exact hlt
        · exact hpre q hq

theorem filter_eq_append_cons {α : Type} (f : α → Bool) (l : List α) :
    ∀ l₁ l₂ x, l.filter f = l₁ ++ x :: l₂ →
      ∃ m₁ m₂, l = m₁ ++ x :: m₂ ∧ ∀ y ∈ m₁, f y = true → y ∈ l₁ := by
  induction l with
  | nil =>
    intro l₁ l₂ x h
    rw [List.filter_nil] at h
    exact absurd h.symm (by simp)
  | cons a t ih =>
    intro l₁ l₂ x h
    by_cases hfa : f a = true
    · rw [List.filter_cons_of_pos hfa] at h
      cases l₁ with
      | nil =>
        simp only [List.nil_append] at h
        injection h with h1 h2
        subst h1
        exact ⟨[], t, rfl, by simp⟩
      | cons b l₁' =>
        rw [List.cons_append] at h
        injection h with h1 h2
        subst h1
        obtain ⟨m₁, m₂, hsp, hmem⟩ := ih l₁' l₂ x h2
        refine ⟨a :: m₁, m₂, by rw [List.cons_append, ← hsp], ?_⟩
        intro y hy hfy
        rcases List.mem_cons.mp hy with rfl | hy
        · exact List.mem_cons_self _ _
        · exact List.mem_cons_of_mem _ (hmem y hy hfy)
    · rw [List.filter_cons_of_neg hfa] at h
      obtain ⟨m₁, m₂, hsp, hmem⟩ := ih l₁ l₂ x h
      refine ⟨a :: m₁, m₂, by rw [List.cons_append, ← hsp], ?_⟩
      intro y hy hfy
      rcases List.mem_cons.mp hy with rfl | hy
      · exact absurd hfy hfa
      · exact hmem y hy hfy

theorem mem_missingFiltered {ds : Dataset} {c : Column}
    (hc : c ∈ ds.cols) (hpos : 0 < missingCount c) :
    (c.name, missingCount c) ∈ missingFiltered ds := by
  unfold missingFiltered missingSummary
  exact List.mem_filter.mpr ⟨List.mem_map.mpr ⟨c, hc, rfl⟩, by simp [hpos]⟩

theorem missingFiltered_eq_nil {ds : Dataset}
    (h : ∀ c ∈ ds.cols, missingCount c = 0) : missingFiltered ds = [] := by
  unfold missingFiltered missingSummary
  apply List.filter_eq_nil_iff.mpr
  intro p hp
  obtain ⟨c, hc, rfl⟩ := List.mem_map.mp hp
  simp [h c hc]

theorem missingInsight_eval {ds : Dataset} {nm : String} {cnt : ℕ}
    (heq : idxmaxWithMax (missingFiltered ds) = some (nm, cnt)) :
    missingInsight ds =
      (if 30 < (cnt : ℚ) / (ds.nrows : ℚ) * 100 then
        MissingInsight.highMissing nm cnt ((cnt : ℚ) / (ds.nrows : ℚ) * 100)
      else MissingInsight.someMissing nm cnt ((cnt : ℚ) / (ds.nrows : ℚ) * 100)) := by
  unfold missingInsight
  rw [heq]

theorem missingInsight_some_inv {ds : Dataset} {nm : String} {cnt : ℕ} {pct : ℚ}
    (h : missingInsight ds = .highMissing nm cnt pct ∨
         missingInsight ds = .someMissing nm cnt pct) :
    idxmaxWithMax (missingFiltered ds) = some (nm, cnt) ∧
    pct = (cnt : ℚ) / (ds.nrows : ℚ) * 100 := by
  unfold missingInsight at h
  split at h
  · rcases h with h | h <;> exact MissingInsight.noConfusion h
  · split at h
    · rcases h with h | h
      · simp only [MissingInsight.highMissing.injEq] at h
        obtain ⟨rfl, rfl, rfl⟩ := h
        exact ⟨by assumption, rfl⟩
      · exact MissingInsight.noConfusion h
    · rcases h with h | h
      · exact MissingInsight.noConfusion h
      · simp only [MissingInsight.someMissing.injEq] at h
        obtain ⟨rfl, rfl, rfl⟩ := h
        exact ⟨by assumption, rfl⟩

/-- Claim C3 (confirmed): the missing-data insight is `noMissingData` exactly
when every column has zero nulls; otherwise it carries the column with the
maximal null count (first in declared order on ties), the percentage
`count / len(df) * 100`, and is classified high exactly when that percentage
strictly exceeds 30. -/
theorem C3_missing_data (ds : Dataset) (v : String → String → ℚ) :
    ((computeTableInsights ds v).missing = MissingInsight.noMissingData ↔
      ∀ c ∈ ds.cols, missingCount c = 0) ∧
    (∀ nm cnt pct,
      ((computeTableInsights ds v).missing = MissingInsight.highMissing nm cnt pct ∨
       (computeTableInsights ds v).missing = MissingInsight.someMissing nm cnt pct) →
      0 < cnt ∧
      pct = (cnt : ℚ) / (ds.nrows : ℚ) * 100 ∧
      (∀ c ∈ ds.cols, missingCount c ≤ cnt) ∧
      (∃ m₁ m₂, missingSummary ds = m₁ ++ (nm, cnt) :: m₂ ∧ ∀ q ∈ m₁, q.2 < cnt) ∧
      ((computeTableInsights ds v).missing = MissingInsight.highMissing nm cnt pct ↔
        30 < pct)) := by
  rw [missing_computeTableInsights]
  constructor
  · constructor
    · intro h
      cases hm : idxmaxWithMax (missingFiltered ds) with
      | none =>
        cases hf : missingFiltered ds with
        | nil =>
          intro c hc
          by_contra hne
          have hmem := mem_missingFiltered hc (Nat.pos_of_ne_zero hne)
          rw [hf] at hmem
          exact absurd hmem (List.not_mem_nil _)
        | cons p tl =>
          rw [hf] at hm
          exact Option.noConfusion hm
      | some p =>
        obtain ⟨nm, cnt⟩ := p
        rw [missingInsight_eval hm] at h
        by_cases h30 : 30 < (cnt : ℚ) / (ds.nrows : ℚ) * 100
        · rw [if_pos h30] at h; exact MissingInsight.noConfusion h
        · rw [if_neg h30] at h; exact MissingInsight.noConfusion h
    · intro h
      unfold missingInsight
      rw [missingFiltered_eq_nil h]
      rfl
  · intro nm cnt pct h
    obtain ⟨hidx, hpct⟩ := missingInsight_some_inv h
    obtain ⟨hle, preF, postF, hsplitF, hpreF⟩ := idxmax_spec hidx
    have hmemF : (nm, cnt) ∈ missingFiltered ds := by
      rw [hsplitF]
      exact List.mem_append_right _ (List.mem_cons_self _ _)
    have hcnt : 0 < cnt := by
      have := (List.mem_filter.mp (by
        unfold missingFiltered at hmemF
        exact hmemF)).2
      simpa using this
    refine ⟨hcnt, hpct, ?_, ?_, ?_⟩
    · intro c hc
      by_cases hc0 : missingCount c = 0
      · rw [hc0]; exact Nat.zero_le _
      · exact hle _ (mem_missingFiltered hc (Nat.pos_of_ne_zero hc0))
    · have hsplitF' : (missingSummary ds).filter (fun p => decide (0 < p.2)) =
          preF ++ (nm, cnt) :: postF := by
        unfold missingFiltered at hsplitF
        exact hsplitF
      obtain ⟨m₁, m₂, hsp, hmem⟩ :=
        filter_eq_append_cons (fun p : String × ℕ => decide (0 < p.2)) (missingSummary ds)
          preF postF (nm, cnt) hsplitF'
      refine ⟨m₁, m₂, hsp, ?_⟩
      intro q hq
      by_cases hq0 : 0 < q.2
      · exact hpreF q (hmem q hq (by simpa using hq0))
      · exact lt_of_le_of_lt (Nat.le_of_not_lt hq0) hcnt
    · rw [missingInsight_eval hidx]
      by_cases h30 : 30 < (cnt : ℚ) / (ds.nrows : ℚ) * 100
      · rw [if_pos h30]
        constructor
        · intro _
          rw [hpct]; exact h30
        · intro _
          rw [hpct]
      · rw [if_neg h30]
        constructor
        · intro hcontra
          exact MissingInsight.noConfusion hcontra
        · intro h30'
          rw [hpct] at h30'
          exact absurd h30' h30

theorem C3_witness :
    ((computeTableInsights dsM zeroCorr).missing =
        MissingInsight.highMissing "a" 2 (200/3) ↔ (30 : ℚ) < 200/3) :=
  ((C3_missing_data dsM zeroCorr).2 "a" 2 (200/3)
    (Or.inl (by
      rw [missing_computeTableInsights,
        missingInsight_eval (by decide :
          idxmaxWithMax (missingFiltered dsM) = some ("a", 2))]
      norm_num [dsM]))).2.2.2.2

/-- Claim C2 counterexample: an object-dtype categorical column with 25
distinct values is still routed to the bar chart by the disjunctive test of
line 144, not to the unsupported message the claim predicts for d >= 25. -/
theorem C2_counterexample :
    25 ≤ nunique colC2 ∧ isObjectDtype colC2.dtype = true ∧
    classifyColumn colC2 ≠ VisKind.unsupported := by
  refine ⟨by decide, rfl, ?_⟩
  unfold classifyColumn
  rw [if_neg (by decide), if_pos (by decide)]
  exact fun h => VisKind.noConfusion h

/-- Claim C2 (corrected): the categorical branch condition of line 144 is a
disjunction — object dtype OR distinct count below 25 — so an object-dtype
(textual) categorical column gets the top-25 bar chart regardless of its
distinct count; the unsupported outcome arises only for a categorical column
of the pandas category dtype (not object dtype) with 25 or more distinct
values, while such a column below 25 still gets the bar chart. -/
theorem C2_categorical_branching (c : Column)
    (hcat : isCategoricalDtype c.dtype = true) :
    (isObjectDtype c.dtype = true →
      classifyColumn c = .barChartTopN ((valueCounts c).take 25)) ∧
    (isObjectDtype c.dtype = false →
      (nunique c < 25 → classifyColumn c = .barChartTopN ((valueCounts c).take 25)) ∧
      (25 ≤ nunique c → classifyColumn c = .unsupported)) := by
  have hnum : isNumericDtype c.dtype = false := by
    cases hd : c.dtype <;>
      first
      | rfl
      | (rw [hd] at hcat; exact absurd hcat (by decide))
  constructor
  · intro hobj
    unfold classifyColumn
    rw [if_neg (by simp [hnum]), if_pos (by rw [hobj]; exact Bool.true_or _)]
  · intro hobjF
    constructor
    · intro hlt
      have hcond : (isObjectDtype c.dtype || decide (nunique c < 25)) = true := by
        rw [hobjF, Bool.false_or]
        exact decide_eq_true hlt
      unfold classifyColumn
      rw [if_neg (by simp [hnum]), if_pos hcond]
    · intro hge
      have hcond : ¬((isObjectDtype c.dtype || decide (nunique c < 25)) = true) := by
        rw [hobjF, Bool.false_or]
        simp only [decide_eq_true_eq]
        exact not_lt.mpr hge
      unfold classifyColumn
      rw [if_neg (by simp [hnum]), if_neg hcond]

theorem C2_witness : classifyColumn colC2b = VisKind.unsupported :=
  ((C2_categorical_branching colC2b rfl).2 rfl).2 (by decide)

theorem filterMap_threshold (l : List Column) :
    (l.filter (fun c => isCategoricalDtype c.dtype)).filterMap
        (fun c => if 50 < nunique c then some (c.name, nunique c) else none) =
      (l.filter (fun c => isCategoricalDtype c.dtype && decide (50 < nunique c))).map
        (fun c => (c.name, nunique c)) := by
  induction l with
  | nil => rfl
  | cons a t ih =>
    by_cases h1 : isCategoricalDtype a.dtype = true
    · by_cases h2 : 50 < nunique a
      · simp [List.filter_cons, List.filterMap_cons, h1, h2, ih]
      · simp [List.filter_cons, List.filterMap_cons, h1, h2, ih]
    · simp [List.filter_cons, h1, ih]

theorem highCardinalityCols_eq (ds : Dataset) :
    highCardinalityCols ds =
      (ds.cols.filter (fun c => isCategoricalDtype c.dtype && decide (50 < nunique c))).map
        (fun c => (c.name, nunique c)) := by
  unfold highCardinalityCols categoricalCols
  exact filterMap_threshold ds.cols

theorem categoricalCols_eq_nil_iff {ds : Dataset} :
    categoricalCols ds = [] ↔ ∀ c ∈ ds.cols, isCategoricalDtype c.dtype = false := by
  unfold categoricalCols
  rw [List.filter_eq_nil_iff]
  simp

theorem highCardinalityCols_eq_nil_iff {ds : Dataset} :
    highCardinalityCols ds = [] ↔
      ∀ c ∈ ds.cols, isCategoricalDtype c.dtype = true → nunique c ≤ 50 := by
  unfold highCardinalityCols
  rw [List.filterMap_eq_nil_iff]
  constructor
  · intro h c hc hcat
    have hnone := h c (by unfold categoricalCols; exact List.mem_filter.mpr ⟨hc, hcat⟩)
    by_contra hgt
    rw [if_pos (not_le.mp hgt)] at hnone
    exact Option.noConfusion hnone
  · intro h c hc
    have hmf := List.mem_filter.mp (by unfold categoricalCols at hc; exact hc)
    rw [if_neg (not_lt.mpr (h c hmf.1 hmf.2))]

/-- Claim C5 counterexample: a dataset with no categorical columns yields the
distinct no-categorical-columns message of line 252, not the
no-high-cardinality message of line 250 that the claim predicts for an empty
collected list. -/
theorem C5_counterexample :
    (computeTableInsights dsXY zeroCorr).cardinality =
      CardinalityInsight.noCategoricalColumns ∧
    (computeTableInsights dsXY zeroCorr).cardinality ≠
      CardinalityInsight.noHighCardinality := by decide

/-- Claim C5 (corrected): the cardinality insight collects exactly the
categorical columns with more than 50 distinct non-null values, in declared
order, reporting them when the list is non-empty; the no-high-cardinality
variant is emitted only when at least one categorical column exists and none
passes the threshold, while a dataset with no categorical columns gets a
distinct no-categorical-columns variant instead. -/
theorem C5_cardinality_insight (ds : Dataset) (v : String → String → ℚ) :
    ((computeTableInsights ds v).cardinality = CardinalityInsight.noCategoricalColumns ↔
      ∀ c ∈ ds.cols, isCategoricalDtype c.dtype = false) ∧
    ((computeTableInsights ds v).cardinality = CardinalityInsight.noHighCardinality ↔
      ((∃ c ∈ ds.cols, isCategoricalDtype c.dtype = true) ∧
       ∀ c ∈ ds.cols, isCategoricalDtype c.dtype = true → nunique c ≤ 50)) ∧
    (∀ l, (computeTableInsights ds v).cardinality = CardinalityInsight.highCardinality l →
      l ≠ [] ∧
      l = (ds.cols.filter (fun c => isCategoricalDtype c.dtype && decide (50 < nunique c))).map
            (fun c => (c.name, nunique c))) := by
  rw [cardinality_computeTableInsights]
  unfold cardinalityInsight
  by_cases hcat : (categoricalCols ds).isEmpty = true
  · rw [if_pos hcat]
    have hcat' := categoricalCols_eq_nil_iff.mp (List.isEmpty_iff.mp hcat)
    refine ⟨⟨fun _ => hcat', fun _ => rfl⟩, ?_, ?_⟩
    · constructor
      · intro hcontra
        exact absurd hcontra (by simp)
      · rintro ⟨⟨c, hc, hcT⟩, _⟩
        rw [hcat' c hc] at hcT
        exact Bool.noConfusion hcT
    · intro l hcontra
      exact absurd hcontra (by simp)
  · rw [if_neg hcat]
    have hne : categoricalCols ds ≠ [] := fun hnil => hcat (by rw [hnil]; rfl)
    have hex : ∃ c ∈ ds.cols, isCategoricalDtype c.dtype = true := by
      cases hcc : categoricalCols ds with
      | nil => exact absurd hcc hne
      | cons c0 t0 =>
        have hc0 : c0 ∈ categoricalCols ds := by
          rw [hcc]; exact List.mem_cons_self _ _
        have hm := List.mem_filter.mp (by unfold categoricalCols at hc0; exact hc0)
        exact ⟨c0, hm.1, hm.2⟩
    by_cases hhigh : (highCardinalityCols ds).isEmpty = true
    · rw [if_pos hhigh]
      have hall := highCardinalityCols_eq_nil_iff.mp (List.isEmpty_iff.mp hhigh)
      refine ⟨?_, ⟨fun _ => ⟨hex, hall⟩, fun _ => rfl⟩, ?_⟩
      · constructor
        · intro hcontra
          exact absurd hcontra (by simp)
        · intro hallF
          obtain ⟨c, hc, hcT⟩ := hex
          rw [hallF c hc] at hcT
          exact Bool.noConfusion hcT
      · intro l hcontra
        exact absurd hcontra (by simp)
    · rw [if_neg hhigh]
      have hlne : highCardinalityCols ds ≠ [] := fun hnil => hhigh (by rw [hnil]; rfl)
      refine ⟨?_, ?_, ?_⟩
      · constructor
        · intro hcontra
          exact absurd hcontra (by simp)
        · intro hallF
          obtain ⟨c, hc, hcT⟩ := hex
          rw [hallF c hc] at hcT
          exact Bool.noConfusion hcT
      · constructor
        · intro hcontra
          exact absurd hcontra (by simp)
        · rintro ⟨_, hall⟩
          exact absurd (highCardinalityCols_eq_nil_iff.mpr hall) hlne
      · intro l hl
        have heq : highCardinalityCols ds = l := by simpa using hl
        subst heq
        exact ⟨hlne, highCardinalityCols_eq ds⟩

theorem C5_witness :
    ([("zip", 51)] : List (String × ℕ)) ≠ [] ∧
    ([("zip", 51)] : List (String × ℕ)) =
      (dsC5.cols.filter (fun c => isCategoricalDtype c.dtype && decide (50 < nunique c))).map
        (fun c => (c.name, nunique c)) :=
  (C5_cardinality_insight dsC5 zeroCorr).2.2 [("zip", 51)] (by decide)
